import Mathlib

/-!
Verification of the ownership / bounds-checked-access layer in
`src/BLUESPAWN-common/headers/common/wrappers.hpp`.

Machine values: a Windows `HANDLE` is a pointer-sized value; we model it as a
`Nat` with `0` for `nullptr` and `2 ^ 64 - 1` for `INVALID_HANDLE_VALUE`
(`(HANDLE)-1` on a 64-bit target).  Bytes are modelled as `Nat`; buffer
contents as functions `Nat → Nat` (the byte at a given offset).
-/

namespace Wrappers

/-- `INVALID_HANDLE_VALUE` is `(HANDLE)(LONG_PTR)-1`, the all-ones
pointer-sized value on a 64-bit target. -/
def INVALID_HANDLE_VALUE : Nat := 2 ^ 64 - 1

/-- `GetCurrentProcess()` returns the current-process pseudo-handle,
`(HANDLE)-1`, whose value coincides with `INVALID_HANDLE_VALUE`. -/
def GetCurrentProcessHandle : Nat := INVALID_HANDLE_VALUE

/-- The Win32 error code `ERROR_INVALID_HANDLE`. -/
def ERROR_INVALID_HANDLE : Nat := 6

/-- The per-copy data of `GenericWrapper<T>` (wrappers.hpp lines 10-36):
the current `WrappedObject` and the optional `BadValue` sentinel.
The shared `ReferenceCounter` is modelled separately by `WrapperLifecycle`. -/
structure GenericWrapperObj (T : Type) where
  wrappedObject : T
  badValue : Option T
deriving DecidableEq

/-- C++ `x != opt` for `x : T`, `opt : std::optional<T>`: true when the
optional is empty or holds a different value. -/
def cppNeOpt {T : Type} [DecidableEq T] (x : T) (o : Option T) : Bool :=
  match o with
  | none => true
  | some b => x ≠ b

/-- C++ `x == opt` for `x : T`, `opt : std::optional<T>`: true when the
optional holds exactly `x`. -/
def cppEqOpt {T : Type} [DecidableEq T] (x : T) (o : Option T) : Bool :=
  match o with
  | none => false
  | some b => x = b

/-- The guard of the deleter installed on `ReferenceCounter` at construction
(line 24): `(!BadValue || object != BadValue) && object`.  `object` and
`BadValue` are the values captured by the lambda at construction time.
`isNull` supplies the C++ boolean test on a raw `T` (for `HANDLE`,
`object != nullptr`). -/
def deleterGuard {T : Type} [DecidableEq T] (isNull : T → Bool) (object : T)
    (badValue : Option T) : Bool :=
  (badValue.isNone || cppNeOpt object badValue) && !(isNull object)

/-- `GenericWrapper::operator!` (line 32):
`!WrappedObject || WrappedObject == BadValue`. -/
def GenericWrapperObj.operatorNot {T : Type} [DecidableEq T] (isNull : T → Bool)
    (w : GenericWrapperObj T) : Bool :=
  isNull w.wrappedObject || cppEqOpt w.wrappedObject w.badValue

/-- The shared state behind `ReferenceCounter` (line 13): the values captured
by the deleter lambda at construction (line 23), the reference count of the
`shared_ptr` control block, and how many times `freeFunction` has run. -/
structure WrapperLifecycle (T : Type) where
  capturedObject : T
  capturedBad : Option T
  refCount : Nat
  releases : Nat
deriving DecidableEq

/-- Construction (lines 20-25) followed by copying the wrapper out to `n`
owning copies: the deleter captures `object` and `BadValue` by value, the
control block holds `n` references, `freeFunction` has not yet run. -/
def WrapperLifecycle.construct {T : Type} (object : T) (badValue : Option T)
    (n : Nat) : WrapperLifecycle T :=
  { capturedObject := object, capturedBad := badValue, refCount := n, releases := 0 }

/-- Destruction of one owning copy: the `shared_ptr` decrements the count;
when the last reference drops, the deleter (line 23-25) runs and invokes
`freeFunction(object)` exactly when `deleterGuard` holds for the captured
values. -/
def WrapperLifecycle.destroyOne {T : Type} [DecidableEq T] (isNull : T → Bool)
    (s : WrapperLifecycle T) : WrapperLifecycle T :=
  if s.refCount = 1 then
    { s with refCount := 0,
             releases := s.releases +
               (if deleterGuard isNull s.capturedObject s.capturedBad then 1 else 0) }
  else
    { s with refCount := s.refCount - 1 }

/-- Destroying `k` of the owning copies, one after the other.  Copies share
one control block and are interchangeable, so a destruction order is just the
number of copies destroyed so far. -/
def WrapperLifecycle.destroyMany {T : Type} [DecidableEq T] (isNull : T → Bool) :
    Nat → WrapperLifecycle T → WrapperLifecycle T
  | 0, s => s
  | k + 1, s => (WrapperLifecycle.destroyMany isNull k s).destroyOne isNull

/-- One wrapper copy together with its shared lifecycle state. -/
structure WrapperInstance (T : Type) where
  wrappedObject : T
  badValue : Option T
  lifecycle : WrapperLifecycle T
deriving DecidableEq

/-- `GenericWrapper::GenericWrapper` (lines 20-25) for a single owning copy. -/
def WrapperInstance.construct {T : Type} (object : T) (badValue : Option T) :
    WrapperInstance T :=
  { wrappedObject := object, badValue := badValue,
    lifecycle := WrapperLifecycle.construct object badValue 1 }

/-- `GenericWrapper::Release` (line 34):
`auto tmp = WrappedObject; WrappedObject = BadValue; return tmp;`.
The assignment `WrappedObject = BadValue` stores the sentinel into the
wrapper (for wrappers constructed with a sentinel, such as `HandleWrapper`,
this installs that sentinel; the line is ill-formed C++ for a `T` with no
conversion from `std::optional<T>`, and we keep the old value in the
sentinel-free case).  The shared `ReferenceCounter` and the values captured
by its deleter are untouched. -/
def WrapperInstance.Release {T : Type} (w : WrapperInstance T) :
    T × WrapperInstance T :=
  (w.wrappedObject,
    { w with wrappedObject :=
        match w.badValue with
        | some b => b
        | none => w.wrappedObject })

/-- Outcome of the liveness probe `GetFileInformationByHandle` inside
`HandleWrapper::SafeCloseHandle` (lines 42-53): success, or failure with the
`GetLastError()` code. -/
inductive ProbeResult where
  | success
  | failure (err : Nat)
deriving DecidableEq

/-- `HandleWrapper::SafeCloseHandle` (lines 42-53), reduced to whether
`CloseHandle` is invoked: close on probe success; on probe failure close
exactly when the error code differs from `ERROR_INVALID_HANDLE`. -/
def SafeCloseHandleCloses (probe : ProbeResult) : Bool :=
  match probe with
  | .success => true
  | .failure a => if a ≠ ERROR_INVALID_HANDLE then true else false

/-- Whether the real `CloseHandle` runs when the last owning copy of a
`HandleWrapper` holding `h` is destroyed: the destruction guard (line 24,
with sentinel `INVALID_HANDLE_VALUE` from line 41) decides whether
`SafeCloseHandle` runs at all, and the probe then decides the close. -/
def handleFinalDestroyCloses (h : Nat) (probe : ProbeResult) : Bool :=
  if deleterGuard (fun x => x == 0) h (some INVALID_HANDLE_VALUE) then
    SafeCloseHandleCloses probe
  else false

/-- `HandleWrapper::HandleWrapper` (lines 40-41): a `GenericWrapper<HANDLE>`
whose sentinel is always `INVALID_HANDLE_VALUE`. -/
def mkHandleWrapper (h : Nat) : GenericWrapperObj Nat :=
  { wrappedObject := h, badValue := some INVALID_HANDLE_VALUE }

/-- `operator!` on a `HandleWrapper` (line 32 instantiated at `HANDLE`):
`!WrappedObject || WrappedObject == BadValue`, where a `HANDLE` is false
exactly when it is null. -/
def handleOperatorNot (w : GenericWrapperObj Nat) : Bool :=
  w.operatorNot (fun x => x == 0)

/-- `operator bool` (line 33): `!operator!()`. -/
def handleOperatorBool (w : GenericWrapperObj Nat) : Bool :=
  !(handleOperatorNot w)

/-- `AllocationWrapper::AllocationFunction` (lines 108-110). -/
inductive AllocationFunction where
  | VIRTUAL_ALLOC
  | HEAP_ALLOC
  | MALLOC
  | CPP_ALLOC
  | CPP_ARRAY_ALLOC
  | STACK_ALLOC
  | LOCAL_ALLOC
  | GLOBAL_ALLOC
deriving DecidableEq

/-- `AllocationWrapper` (lines 102-217): `hasMemory` is
`Memory.has_value()`, `bytes i` the byte `pointer[i]`, `allocationSize` the
`AllocationSize` field, and `allocType` the `AllocationFunction` captured by
the shared-pointer deleter. -/
structure AllocationWrapper where
  hasMemory : Bool
  bytes : Nat → Nat
  allocationSize : Nat
  allocType : AllocationFunction

/-- `AllocationWrapper::AllocationWrapper` (lines 112-134): `Memory` is
engaged exactly when `size && memory`, and `AllocationSize` is set to `size`
either way.  `memoryIsNull` is whether the raw pointer argument is null. -/
def AllocationWrapper.construct (memoryIsNull : Bool) (bytes : Nat → Nat)
    (size : Nat) (ty : AllocationFunction) : AllocationWrapper :=
  { hasMemory := (size != 0) && !memoryIsNull,
    bytes := bytes, allocationSize := size, allocType := ty }

/-- `AllocationWrapper::operator[]` (lines 136-138):
`Memory && i < AllocationSize ? pointer[i] : 0`. -/
def AllocationWrapper.opIndex (a : AllocationWrapper) (i : Nat) : Nat :=
  if a.hasMemory && decide (i < a.allocationSize) then a.bytes i else 0

/-- `AllocationWrapper::GetSize` (lines 148-150). -/
def AllocationWrapper.GetSize (a : AllocationWrapper) : Nat :=
  if a.hasMemory then a.allocationSize else 0

/-- `AllocationWrapper::Dereference<T>` (lines 157-164).  A value of type `T`
is represented by its `sizeof(T)` constituent bytes, so the result is the
list of the first `sizeT` bytes of the backing buffer. -/
def AllocationWrapper.Dereference (a : AllocationWrapper) (sizeT : Nat) :
    Option (List Nat) :=
  if decide (a.allocationSize < sizeT) || !a.hasMemory then none
  else some ((List.range sizeT).map a.bytes)

/-- `AllocationWrapper::CompareMemory` (lines 190-203).  `a` plays the role
of `*this` and `w` of the `wrapper` argument; the loop compares
`pointer[i]` (a direct read of this buffer) against `wrapper[i]` (the
checked `operator[]`). -/
def AllocationWrapper.CompareMemory (a w : AllocationWrapper) : Bool :=
  if !w.hasMemory && !a.hasMemory then true
  else if !w.hasMemory || !a.hasMemory then false
  else if w.allocationSize == a.allocationSize then
    (List.range a.allocationSize).all fun i => a.bytes i == w.opIndex i
  else false

/-- `MemoryWrapper<T>` (lines 219-375) at `T = CHAR`: the raw `address`
(0 for `nullptr`), the `HandleWrapper process` member built from the
`HANDLE` passed at construction, and `MemorySize`. -/
structure MemoryWrapper where
  address : Nat
  process : GenericWrapperObj Nat
  memorySize : Nat
deriving DecidableEq

/-- `MemoryWrapper::MemoryWrapper` (lines 228-229). -/
def MemoryWrapper.construct (lpMemoryBase : Nat) (size : Nat) (process : Nat) :
    MemoryWrapper :=
  { address := lpMemoryBase, process := mkHandleWrapper process, memorySize := size }

/-- Construction with the defaulted process argument
`HANDLE process = GetCurrentProcess()` (line 228). -/
def MemoryWrapper.constructDefault (lpMemoryBase : Nat) (size : Nat) :
    MemoryWrapper :=
  MemoryWrapper.construct lpMemoryBase size GetCurrentProcessHandle

/-- The branch condition `if(!process)` used by `Dereference`, `operator->`,
`Protect`, `ReadString` and (negated, via `if(process)`)
`ToAllocationWrapper`: the inherited `HandleWrapper::operator!`. -/
def MemoryWrapper.isLocal (m : MemoryWrapper) : Bool :=
  handleOperatorNot m.process

/-- `MemoryWrapper::Dereference` (lines 231-239).  `localValue` is
`*address` in the local address space; in the foreign branch the scratch `T`
is zero-initialised and `ReadProcessMemory`'s result is ignored, so a failed
read returns the zero value and a successful read returns `remoteValue`. -/
def MemoryWrapper.Dereference (m : MemoryWrapper) (localValue : Nat)
    (readOk : Bool) (remoteValue : Nat) : Nat :=
  if m.isLocal then localValue
  else if readOk then remoteValue else 0

/-- `MemoryWrapper::operator->` (lines 250-261): local context returns the
true address; foreign context returns the address of the freshly populated
`LocalCopy` on read success and `nullptr` (`none`) on failure. -/
def MemoryWrapper.operatorArrow (m : MemoryWrapper) (readOk : Bool)
    (localCopyAddress : Nat) : Option Nat :=
  if m.isLocal then some m.address
  else if readOk then some localCopyAddress else none

/-- `MemoryWrapper::GetOffset` (lines 268-274). -/
def MemoryWrapper.GetOffset (m : MemoryWrapper) (offset : Nat) : MemoryWrapper :=
  if offset > m.memorySize then
    { address := 0, process := m.process, memorySize := 0 }
  else
    { address := m.address + offset, process := m.process,
      memorySize := m.memorySize - offset }

/-- `MemoryWrapper::Protect` (lines 282-290), reduced to routing: the local
branch calls `VirtualProtect` and the foreign branch `VirtualProtectEx`;
`vpResult` and `vpxResult` are the respective OS results. -/
def MemoryWrapper.Protect (m : MemoryWrapper) (protections sizeArg : Nat)
    (vpResult vpxResult : Bool) : Bool :=
  if m.isLocal then vpResult else vpxResult

/-- Reading the C string at a buffer, as `std::string{ memory }` does: the
bytes before the first zero.  `limit` is the extent of the buffer; if no
zero occurs within it the constructor scans out of bounds, which we model as
`none`. -/
def cstrBytes (buf : Nat → Nat) (limit : Nat) : Option (List Nat) :=
  if (List.range limit).any (fun i => buf i == 0) then
    some (((List.range limit).takeWhile (fun i => buf i != 0)).map buf)
  else none

/-- The inner `for(; idx < maxIdx; idx++)` of `ReadString` (lines 301-308),
which runs only after a FAILED `ReadProcessMemory`, so the buffer it scans is
the fresh allocation's contents, never remotely read bytes.  `garbage n i` is
byte `i` of the `n`-th allocation made by this call.  On each non-zero byte
the buffer is deleted and reallocated with `new char[maxIdx * 2]`.  Returns
the new `(allocN, allocSize, idx, valid)`. -/
def innerScan (garbage : Nat → Nat → Nat) (maxIdx allocN allocSize idx : Nat) :
    Nat × Nat × Nat × Bool :=
  if h : idx < maxIdx then
    if garbage allocN idx == 0 then (allocN, allocSize, idx, true)
    else innerScan garbage maxIdx (allocN + 1) (maxIdx * 2) (idx + 1)
  else (allocN, allocSize, idx, false)
termination_by maxIdx - idx
decreasing_by omega

/-- The outer `while(!valid && !ReadProcessMemory(...))` of `ReadString`
(lines 296-314).  `readOk k` is whether the `k`-th `ReadProcessMemory`
attempt succeeds.  Note the negation in the source: a SUCCESSFUL read makes
the loop condition false, so the loop exits with `valid` still false and the
function returns the empty string; the buffer is scanned only after a failed
read.  Bytes delivered by a successful read are therefore never examined,
which is why no remote-contents parameter appears.  `none` models
non-termination or an out-of-bounds `std::string` scan. -/
def foreignReadLoop (garbage : Nat → Nat → Nat) (readOk : Nat → Bool)
    (memorySize : Nat) :
    Nat → Nat → Nat → Nat → Nat → Nat → Bool → Option (List Nat)
  | 0, _, _, _, _, _, _ => none
  | fuel + 1, idx, maxIdx, allocN, allocSize, attempt, valid =>
    if valid then cstrBytes (garbage allocN) allocSize
    else
      let maxIdx2 := min (maxIdx * 2) memorySize
      if readOk attempt then some []
      else
        match innerScan garbage maxIdx2 allocN allocSize idx with
        | (allocN2, allocSize2, idx2, valid2) =>
          foreignReadLoop garbage readOk memorySize fuel idx2 maxIdx2 allocN2
            allocSize2 (attempt + 1) valid2

/-- `MemoryWrapper::ReadString` (lines 292-316).  The local branch is
`std::string{ address }`: the bytes at `localContents` before the first
terminator, scanning up to `localLimit`.  The foreign branch starts with
`idx = 0`, `maxIdx = 10`, a first 20-byte allocation, and `valid = false`. -/
def MemoryWrapper.ReadString (m : MemoryWrapper) (localContents : Nat → Nat)
    (localLimit : Nat) (readOk : Nat → Bool) (garbage : Nat → Nat → Nat)
    (fuel : Nat) : Option (List Nat) :=
  if m.isLocal then cstrBytes localContents localLimit
  else foreignReadLoop garbage readOk m.memorySize fuel 0 10 0 20 0 false

/-- `MemoryWrapper::ToAllocationWrapper` (lines 347-374).  `contents i` is
byte `i` at the view's address (local or remote), `readOk` the outcome of
`ReadProcessMemory` in the foreign branch.  `VirtualAlloc(MEM_COMMIT)` and
`HeapAlloc(HEAP_ZERO_MEMORY)` are modelled as succeeding and zero-filled, so
after the copy the buffer holds `contents` below `size` and zero above. -/
def MemoryWrapper.ToAllocationWrapper (m : MemoryWrapper) (contents : Nat → Nat)
    (readOk : Bool) (sizeArg : Nat) : AllocationWrapper :=
  let size := min sizeArg m.memorySize
  if size > 0x8000 then
    let wrapper := AllocationWrapper.construct false (fun _ => 0) size .VIRTUAL_ALLOC
    if handleOperatorBool m.process then
      if readOk then
        { wrapper with bytes := fun i => if i < size then contents i else 0 }
      else AllocationWrapper.construct true (fun _ => 0) 0 .STACK_ALLOC
    else
      { wrapper with bytes := fun i => if i < size then contents i else 0 }
  else
    let wrapper := AllocationWrapper.construct false (fun _ => 0) size .HEAP_ALLOC
    if handleOperatorBool m.process then
      if readOk then
        { wrapper with bytes := fun i => if i < size then contents i else 0 }
      else AllocationWrapper.construct true (fun _ => 0) 0 .STACK_ALLOC
    else
      { wrapper with bytes := fun i => if i < size then contents i else 0 }

/-- The materialised allocation produced by the local branch of
`ToAllocationWrapper` (and by the successful foreign branch): an allocation
of `min sizeArg memorySize` bytes holding the view's contents, page-backed
above the `0x8000` threshold and heap-backed otherwise. -/
def localMaterialize (memorySize : Nat) (contents : Nat → Nat) (sizeArg : Nat) :
    AllocationWrapper :=
  let c := min sizeArg memorySize
  { hasMemory := (c != 0) && true,
    bytes := fun i => if i < c then contents i else 0,
    allocationSize := c,
    allocType := if c > 0x8000 then .VIRTUAL_ALLOC else .HEAP_ALLOC }

/-- The allocation produced by the foreign branch of `ToAllocationWrapper`:
the materialised copy on read success, the empty `{ nullptr, 0 }` allocation
on failure. -/
def foreignMaterialize (memorySize : Nat) (contents : Nat → Nat)
    (readOk : Bool) (sizeArg : Nat) : AllocationWrapper :=
  if readOk then localMaterialize memorySize contents sizeArg
  else AllocationWrapper.construct true (fun _ => 0) 0 .STACK_ALLOC

/-- The deleter guard of line 24 holds exactly when the captured object is
non-null and differs from the captured sentinel. -/
theorem deleterGuard_eq {T : Type} [DecidableEq T] (isNull : T → Bool)
    (object : T) (badValue : Option T) :
    deleterGuard isNull object badValue
      = decide (isNull object = false ∧ badValue ≠ some object) := by
  cases badValue with
  | none => cases h : isNull object <;> simp [deleterGuard, cppNeOpt, h]
  | some b =>
    cases h : isNull object <;>
      by_cases hob : object = b <;>
        simp [deleterGuard, cppNeOpt, h, hob, eq_comm]

/-- While owning copies remain, destroying `k < N` of the `N` copies only
decrements the shared reference count; the deleter has not yet run. -/
theorem destroyMany_pending {T : Type} [DecidableEq T] (isNull : T → Bool)
    (object : T) (badValue : Option T) (N : Nat) :
    ∀ k, k < N →
      WrapperLifecycle.destroyMany isNull k
          (WrapperLifecycle.construct object badValue N)
        = WrapperLifecycle.construct object badValue (N - k) := by
  intro k
  induction k with
  | zero => intro _; simp [WrapperLifecycle.destroyMany]
  | succ k ih =>
    intro hk
    have hk1 : k < N := Nat.lt_of_succ_lt hk
    have hne : N - k ≠ 1 := by omega
    simp only [WrapperLifecycle.destroyMany, ih hk1]
    simp [WrapperLifecycle.destroyOne, WrapperLifecycle.construct, hne]
    omega

/-- C1: across `N` owning copies of one `GenericWrapper` acquisition, the
release action runs zero times while any copy is still alive and exactly
once in total after the last copy is destroyed — and zero times in total
when the wrapped value is null or equals the invalid sentinel.  Copies share
one reference-counted control block, so the destruction order is immaterial
and is represented by the count of copies destroyed so far. -/
theorem genericWrapper_release_once {T : Type} [DecidableEq T]
    (isNull : T → Bool) (object : T) (badValue : Option T) (N : Nat)
    (hN : 1 ≤ N) :
    (∀ k, k < N →
        (WrapperLifecycle.destroyMany isNull k
          (WrapperLifecycle.construct object badValue N)).releases = 0)
    ∧ (WrapperLifecycle.destroyMany isNull N
          (WrapperLifecycle.construct object badValue N)).releases
        = if isNull object = false ∧ badValue ≠ some object then 1 else 0 := by
  constructor
  · intro k hk
    rw [destroyMany_pending isNull object badValue N k hk]
    rfl
  · obtain ⟨M, rfl⟩ : ∃ M, N = M + 1 := ⟨N - 1, by omega⟩
    have hM : M < M + 1 := by omega
    have h1 : M + 1 - M = 1 := by omega
    simp only [WrapperLifecycle.destroyMany,
      destroyMany_pending isNull object badValue (M + 1) M hM, h1]
    simp [WrapperLifecycle.destroyOne, WrapperLifecycle.construct, deleterGuard_eq]

/-- Witness for C1: a wrapper holding `5` with sentinel `7`, shared across
three copies; no release after two destructions, one release after all
three. -/
theorem genericWrapper_release_once_witness :
    (1 ≤ 3)
    ∧ (WrapperLifecycle.destroyMany (fun x => x == 0) 2
        (WrapperLifecycle.construct (5 : Nat) (some 7) 3)).releases = 0
    ∧ (WrapperLifecycle.destroyMany (fun x => x == 0) 3
        (WrapperLifecycle.construct (5 : Nat) (some 7) 3)).releases = 1 := by
  refine ⟨by decide, ?_, ?_⟩
  · exact (genericWrapper_release_once (fun x => x == 0) 5 (some 7) 3
      (by decide)).1 2 (by decide)
  · rw [(genericWrapper_release_once (fun x => x == 0) 5 (some 7) 3
      (by decide)).2]
    decide

/-- C2 evaluated on the code: a `HandleWrapper`-style wrapper holding the
valid handle `4` with sentinel `INVALID_HANDLE_VALUE`.  `Release()` does
return the old value and install the sentinel, but destroying the last copy
afterwards still runs the release action once, because the deleter installed
at construction (line 23-25) tests the `object` it captured by value, not
the current `WrappedObject`. -/
theorem release_then_destroy_runs_action :
    (WrapperInstance.construct (4 : Nat) (some INVALID_HANDLE_VALUE)).Release.1 = 4
    ∧ (WrapperInstance.construct (4 : Nat)
        (some INVALID_HANDLE_VALUE)).Release.2.wrappedObject = INVALID_HANDLE_VALUE
    ∧ ((WrapperInstance.construct (4 : Nat)
          (some INVALID_HANDLE_VALUE)).Release.2.lifecycle.destroyOne
            (fun x => x == 0)).releases = 1 := by
  refine ⟨rfl, rfl, by decide⟩

/-- C3 evaluated on the code: a foreign view (process handle `42`) of size
`4` whose remote reads all succeed.  The loop condition
`!valid && !ReadProcessMemory(...)` is false as soon as the first read
succeeds, so the buffer is never scanned for a terminator and the function
returns the empty string — whatever the remote bytes were. -/
theorem foreign_readString_success_returns_empty :
    MemoryWrapper.ReadString (MemoryWrapper.construct 100 4 42) (fun _ => 0) 0
      (fun _ => true) (fun _ _ => 1) 5 = some [] := by
  decide

/-- C4: when the last copy of a `HandleWrapper` holding a valid,
non-sentinel handle is destroyed, `CloseHandle` is skipped exactly when the
`GetFileInformationByHandle` probe fails with `ERROR_INVALID_HANDLE`; probe
success, or failure with any other error code, performs the real close. -/
theorem safeCloseHandle_spec (h : Nat) (probe : ProbeResult) (h0 : h ≠ 0)
    (hIHV : h ≠ INVALID_HANDLE_VALUE) :
    (handleFinalDestroyCloses h probe = false
      ↔ probe = ProbeResult.failure ERROR_INVALID_HANDLE) := by
  have hg : deleterGuard (fun x => x == 0) h (some INVALID_HANDLE_VALUE) = true := by
    rw [deleterGuard_eq]
    simp only [decide_eq_true_eq]
    exact ⟨by simp [h0], by simp [Ne.symm hIHV]⟩
  unfold handleFinalDestroyCloses
  rw [hg]
  cases probe with
  | success => simp [SafeCloseHandleCloses]
  | failure e =>
    by_cases he : e = ERROR_INVALID_HANDLE <;> simp [SafeCloseHandleCloses, he]

/-- Witness for C4: handle `4` (valid and not the sentinel), probe failing
with `ERROR_INVALID_HANDLE`, so the close is skipped. -/
theorem safeCloseHandle_spec_witness :
    (4 : Nat) ≠ 0 ∧ (4 : Nat) ≠ INVALID_HANDLE_VALUE
    ∧ (handleFinalDestroyCloses 4 (ProbeResult.failure 6) = false
        ↔ ProbeResult.failure 6 = ProbeResult.failure ERROR_INVALID_HANDLE) :=
  ⟨by decide, by decide,
    safeCloseHandle_spec 4 (ProbeResult.failure 6) (by decide) (by decide)⟩

/-- C5: `GetOffset k` on a view of address `addr`, size `s` and process
context `hproc` yields `{addr + k, s - k, hproc}` for `k < s`, a zero-size
view for `k = s`, and the null view `{0, 0}` (same process context) for
`k > s`. -/
theorem getOffset_spec (addr s hproc k : Nat) :
    (k < s → (MemoryWrapper.construct addr s hproc).GetOffset k
        = MemoryWrapper.construct (addr + k) (s - k) hproc)
    ∧ ((MemoryWrapper.construct addr s hproc).GetOffset s).memorySize = 0
    ∧ (s < k → (MemoryWrapper.construct addr s hproc).GetOffset k
        = { address := 0, process := mkHandleWrapper hproc, memorySize := 0 }) := by
  refine ⟨?_, ?_, ?_⟩
  · intro hk
    have hgt : ¬ (k > s) := by omega
    simp [MemoryWrapper.GetOffset, MemoryWrapper.construct, hgt]
  · simp [MemoryWrapper.GetOffset, MemoryWrapper.construct]
  · intro hk
    simp [MemoryWrapper.GetOffset, MemoryWrapper.construct, hk]

/-- Witness for C5: a local view at `100` of size `4`; offset `1` shifts the
view, offset `9` collapses it to the null view. -/
theorem getOffset_spec_witness :
    (1 < 4)
    ∧ (MemoryWrapper.construct 100 4 0).GetOffset 1
        = MemoryWrapper.construct 101 3 0
    ∧ (4 < 9)
    ∧ (MemoryWrapper.construct 100 4 0).GetOffset 9
        = { address := 0, process := mkHandleWrapper 0, memorySize := 0 } := by
  refine ⟨by decide, ?_, by decide, ?_⟩
  · exact (getOffset_spec 100 4 0 1).1 (by decide)
  · exact (getOffset_spec 100 4 0 9).2.2 (by decide)

/-- For two allocations that both have backing memory, `CompareMemory` holds
exactly when the sizes agree and every byte agrees. -/
theorem compareMemory_nonempty {a b : AllocationWrapper}
    (ha : a.hasMemory = true) (hb : b.hasMemory = true) :
    (a.CompareMemory b = true ↔
      a.allocationSize = b.allocationSize
      ∧ ∀ i, i < a.allocationSize → a.bytes i = b.bytes i) := by
  unfold AllocationWrapper.CompareMemory
  rw [ha, hb]
  by_cases hs : b.allocationSize = a.allocationSize
  · rw [if_neg (by simp), if_neg (by simp), if_pos (by simp [hs])]
    constructor
    · intro hall
      refine ⟨hs.symm, fun i hi => ?_⟩
      have h2 := List.all_eq_true.mp hall i (List.mem_range.mpr hi)
      simp only [AllocationWrapper.opIndex] at h2
      rw [if_pos (by simp [hb, hs, hi])] at h2
      exact beq_iff_eq.mp h2
    · intro hall
      refine List.all_eq_true.mpr fun i hi => ?_
      have hi2 := List.mem_range.mp hi
      simp only [AllocationWrapper.opIndex]
      rw [if_pos (by simp [hb, hs, hi2])]
      exact beq_iff_eq.mpr (hall.2 i hi2)
  · rw [if_neg (by simp), if_neg (by simp), if_neg (by simp [hs])]
    constructor
    · intro hfalse
      simp at hfalse
    · intro hall
      exact absurd hall.1.symm hs

/-- C6: `CompareMemory` is reflexive; two allocations with no backing memory
compare equal; an empty and a non-empty allocation compare unequal both
ways; and two non-empty allocations compare equal iff their sizes match and
all their bytes match (so differing sizes compare false even when the
overlapping bytes agree). -/
theorem compareMemory_spec (a b : AllocationWrapper) :
    a.CompareMemory a = true
    ∧ (a.hasMemory = false → b.hasMemory = false → a.CompareMemory b = true)
    ∧ (a.hasMemory = false → b.hasMemory = true →
        a.CompareMemory b = false ∧ b.CompareMemory a = false)
    ∧ (a.hasMemory = true → b.hasMemory = true →
        (a.CompareMemory b = true ↔
          a.allocationSize = b.allocationSize
          ∧ ∀ i, i < a.allocationSize → a.bytes i = b.bytes i)) := by
  refine ⟨?_, ?_, ?_, fun ha hb => compareMemory_nonempty ha hb⟩
  · cases hc : a.hasMemory with
    | false => simp [AllocationWrapper.CompareMemory, hc]
    | true =>
      rw [compareMemory_nonempty hc hc]
      exact ⟨rfl, fun i _ => rfl⟩
  · intro ha hb
    simp [AllocationWrapper.CompareMemory, ha, hb]
  · intro ha hb
    constructor
    · simp [AllocationWrapper.CompareMemory, ha, hb]
    · simp [AllocationWrapper.CompareMemory, ha, hb]

/-- Witness for C6: the empty allocation against a non-empty 3-byte one. -/
theorem compareMemory_spec_witness :
    (AllocationWrapper.construct true (fun _ => 0) 0 .STACK_ALLOC).hasMemory = false
    ∧ (AllocationWrapper.construct false (fun j => j + 1) 3 .HEAP_ALLOC).hasMemory = true
    ∧ (AllocationWrapper.construct true (fun _ => 0) 0 .STACK_ALLOC).CompareMemory
        (AllocationWrapper.construct false (fun j => j + 1) 3 .HEAP_ALLOC) = false
    ∧ (AllocationWrapper.construct false (fun j => j + 1) 3 .HEAP_ALLOC).CompareMemory
        (AllocationWrapper.construct true (fun _ => 0) 0 .STACK_ALLOC) = false := by
  have h := (compareMemory_spec
    (AllocationWrapper.construct true (fun _ => 0) 0 .STACK_ALLOC)
    (AllocationWrapper.construct false (fun j => j + 1) 3 .HEAP_ALLOC)).2.2.1 rfl rfl
  exact ⟨rfl, rfl, h.1, h.2⟩

/-- C7: the indexed byte read returns zero for every index at or beyond the
allocation's size (for any allocation, the empty one included), and returns
the byte at the offset for an in-bounds index of an allocation with backing
memory (`GetSize` is positive only then). -/
theorem opIndex_bounds (a : AllocationWrapper) (i : Nat) :
    (a.GetSize ≤ i → a.opIndex i = 0)
    ∧ (i < a.GetSize → a.opIndex i = a.bytes i) := by
  cases hc : a.hasMemory with
  | false =>
    constructor
    · intro _
      simp [AllocationWrapper.opIndex, hc]
    · intro hi
      simp [AllocationWrapper.GetSize, hc] at hi
  | true =>
    constructor
    · intro hi
      simp only [AllocationWrapper.GetSize, hc, if_true] at hi
      have hlt : ¬ i < a.allocationSize := by omega
      simp [AllocationWrapper.opIndex, hc, hlt]
    · intro hi
      simp only [AllocationWrapper.GetSize, hc, if_true] at hi
      simp [AllocationWrapper.opIndex, hc, hi]

/-- Witness for C7: a 3-byte allocation, read at the out-of-range index `5`
and the in-range index `1`. -/
theorem opIndex_bounds_witness :
    (AllocationWrapper.construct false (fun j => j + 10) 3 .HEAP_ALLOC).GetSize ≤ 5
    ∧ (AllocationWrapper.construct false (fun j => j + 10) 3 .HEAP_ALLOC).opIndex 5 = 0
    ∧ 1 < (AllocationWrapper.construct false (fun j => j + 10) 3 .HEAP_ALLOC).GetSize
    ∧ (AllocationWrapper.construct false (fun j => j + 10) 3 .HEAP_ALLOC).opIndex 1
        = (AllocationWrapper.construct false (fun j => j + 10) 3 .HEAP_ALLOC).bytes 1 := by
  refine ⟨by decide, ?_, by decide, ?_⟩
  · exact (opIndex_bounds _ 5).1 (by decide)
  · exact (opIndex_bounds _ 1).2 (by decide)

/-- C8: the typed dereference is empty exactly when the requested type's
size exceeds the declared allocation size or there is no backing memory;
otherwise it returns the value formed from the first `sizeT` bytes of the
backing buffer. -/
theorem dereference_spec (a : AllocationWrapper) (sizeT : Nat) :
    (a.Dereference sizeT = none ↔
      (a.allocationSize < sizeT ∨ a.hasMemory = false))
    ∧ (sizeT ≤ a.allocationSize → a.hasMemory = true →
        a.Dereference sizeT = some ((List.range sizeT).map a.bytes)) := by
  constructor
  · by_cases h1 : a.allocationSize < sizeT
    · simp [AllocationWrapper.Dereference, h1]
    · cases h2 : a.hasMemory <;> simp [AllocationWrapper.Dereference, h1, h2]
  · intro h1 h2
    have hlt : ¬ a.allocationSize < sizeT := by omega
    simp [AllocationWrapper.Dereference, hlt, h2]

/-- Witness for C8: a 4-byte allocation dereferenced at a 2-byte type. -/
theorem dereference_spec_witness :
    2 ≤ (AllocationWrapper.construct false (fun j => j) 4 .HEAP_ALLOC).allocationSize
    ∧ (AllocationWrapper.construct false (fun j => j) 4 .HEAP_ALLOC).hasMemory = true
    ∧ (AllocationWrapper.construct false (fun j => j) 4 .HEAP_ALLOC).Dereference 2
        = some ((List.range 2).map
            (AllocationWrapper.construct false (fun j => j) 4 .HEAP_ALLOC).bytes) := by
  refine ⟨by decide, rfl, (dereference_spec _ 2).2 (by decide) rfl⟩

/-- `HandleWrapper::operator!` on a wrapper built from raw handle `h` holds
exactly when `h` is null or the `INVALID_HANDLE_VALUE` sentinel. -/
theorem handleNot_eq_decide (hproc : Nat) :
    handleOperatorNot (mkHandleWrapper hproc)
      = decide (hproc = 0 ∨ hproc = INVALID_HANDLE_VALUE) := by
  by_cases h0 : hproc = 0 <;> by_cases hI : hproc = INVALID_HANDLE_VALUE <;>
    simp [handleOperatorNot, mkHandleWrapper, GenericWrapperObj.operatorNot,
      cppEqOpt, h0, hI]

/-- `HandleWrapper::operator bool` is the negation of the above. -/
theorem handleBool_eq_decide (hproc : Nat) :
    handleOperatorBool (mkHandleWrapper hproc)
      = !(decide (hproc = 0 ∨ hproc = INVALID_HANDLE_VALUE)) := by
  rw [handleOperatorBool, handleNot_eq_decide]

/-- The `if(!process)` test of the memory view, as a decide. -/
theorem isLocal_eq_decide (addr s hproc : Nat) :
    (MemoryWrapper.construct addr s hproc).isLocal
      = decide (hproc = 0 ∨ hproc = INVALID_HANDLE_VALUE) :=
  handleNot_eq_decide hproc

/-- `ToAllocationWrapper` produces the failed-read empty allocation in the
foreign branch on failure, and the materialised copy otherwise. -/
theorem toAllocationWrapper_eq (addr s hproc : Nat) (contents : Nat → Nat)
    (readOk : Bool) (sizeArg : Nat) :
    (MemoryWrapper.construct addr s hproc).ToAllocationWrapper contents readOk
        sizeArg
      = if handleOperatorBool (mkHandleWrapper hproc)
        then foreignMaterialize s contents readOk sizeArg
        else localMaterialize s contents sizeArg := by
  unfold MemoryWrapper.ToAllocationWrapper foreignMaterialize localMaterialize
  cases hb : handleOperatorBool (mkHandleWrapper hproc) <;>
    cases hr : readOk <;>
      by_cases hsz : min sizeArg s > 0x8000 <;>
        simp [MemoryWrapper.construct, hb, hsz, AllocationWrapper.construct]

/-- Field values of the materialised copy. -/
theorem localMaterialize_props (s : Nat) (contents : Nat → Nat) (sizeArg : Nat) :
    (localMaterialize s contents sizeArg).allocType
        = (if min sizeArg s > 0x8000 then .VIRTUAL_ALLOC else .HEAP_ALLOC)
    ∧ (localMaterialize s contents sizeArg).allocationSize = min sizeArg s
    ∧ ∀ i, i < min sizeArg s →
        (localMaterialize s contents sizeArg).opIndex i = contents i := by
  refine ⟨rfl, rfl, fun i hi => ?_⟩
  have hi1 : i < sizeArg := by omega
  have hi2 : i < s := by omega
  have hne : min sizeArg s ≠ 0 := by omega
  simp [localMaterialize, AllocationWrapper.opIndex, hi1, hi2, hne]

/-- C9: `ToAllocationWrapper(n)` on a view of size `s` copies
`min n s` bytes of the view's contents into an owned allocation, page-backed
(`VIRTUAL_ALLOC`) when that size is above `0x8000` and heap-backed
(`HEAP_ALLOC`) otherwise; in a foreign process context a failed
`ReadProcessMemory` yields the empty allocation instead, while a local view
always gets the direct copy. -/
theorem toAllocationWrapper_spec (addr s hproc sizeArg : Nat)
    (contents : Nat → Nat) (readOk : Bool) :
    (handleOperatorBool (mkHandleWrapper hproc) = true → readOk = false →
      ((MemoryWrapper.construct addr s hproc).ToAllocationWrapper contents readOk
          sizeArg).hasMemory = false
      ∧ ((MemoryWrapper.construct addr s hproc).ToAllocationWrapper contents readOk
          sizeArg).GetSize = 0)
    ∧ ((handleOperatorBool (mkHandleWrapper hproc) = true → readOk = true) →
        ((MemoryWrapper.construct addr s hproc).ToAllocationWrapper contents readOk
            sizeArg).allocType
          = (if min sizeArg s > 0x8000 then .VIRTUAL_ALLOC else .HEAP_ALLOC)
        ∧ ((MemoryWrapper.construct addr s hproc).ToAllocationWrapper contents readOk
            sizeArg).allocationSize = min sizeArg s
        ∧ ∀ i, i < min sizeArg s →
            ((MemoryWrapper.construct addr s hproc).ToAllocationWrapper contents
              readOk sizeArg).opIndex i = contents i) := by
  rw [toAllocationWrapper_eq]
  constructor
  · intro hb hr
    simp [hb, hr, foreignMaterialize, AllocationWrapper.construct,
      AllocationWrapper.GetSize]
  · intro hcond
    cases hb : handleOperatorBool (mkHandleWrapper hproc) with
    | false =>
      simpa [hb] using localMaterialize_props s contents sizeArg
    | true =>
      have hr := hcond hb
      subst hr
      simpa [hb, foreignMaterialize] using localMaterialize_props s contents sizeArg

/-- Witness for C9: a foreign view (handle `42`) with a failed read yields
the empty allocation; a local view (handle `0`) materialises 3 of its 4
bytes. -/
theorem toAllocationWrapper_spec_witness :
    handleOperatorBool (mkHandleWrapper 42) = true
    ∧ ((MemoryWrapper.construct 100 4 42).ToAllocationWrapper (fun j => j + 2)
        false 3).hasMemory = false
    ∧ ((MemoryWrapper.construct 100 4 42).ToAllocationWrapper (fun j => j + 2)
        false 3).GetSize = 0
    ∧ ((MemoryWrapper.construct 100 4 0).ToAllocationWrapper (fun j => j + 2)
        true 3).allocationSize = min 3 4
    ∧ (∀ i, i < min 3 4 →
        ((MemoryWrapper.construct 100 4 0).ToAllocationWrapper (fun j => j + 2)
          true 3).opIndex i = i + 2) := by
  have h1 := (toAllocationWrapper_spec 100 4 42 3 (fun j => j + 2) false).1
    (by decide) rfl
  have h2 := (toAllocationWrapper_spec 100 4 0 3 (fun j => j + 2) true).2
    (fun _ => rfl)
  exact ⟨by decide, h1.1, h1.2, h2.2.1, h2.2.2⟩

/-- C10: a memory view takes the local direct-access path in `Dereference`,
`operator->`, `Protect`, `ReadString` and `ToAllocationWrapper` exactly when
the stored process handle is null or equals `INVALID_HANDLE_VALUE`; the
defaulted constructor argument `GetCurrentProcess()` (the pseudo-handle,
equal to `INVALID_HANDLE_VALUE`) is therefore treated as local, and every
other handle value routes these operations to the remote-process
primitives. -/
theorem memoryWrapper_local_routing (addr s hproc : Nat) :
    ((MemoryWrapper.construct addr s hproc).isLocal = true
      ↔ (hproc = 0 ∨ hproc = INVALID_HANDLE_VALUE))
    ∧ (MemoryWrapper.constructDefault addr s).isLocal = true
    ∧ (∀ lv rv : Nat, ∀ ok : Bool,
        (MemoryWrapper.construct addr s hproc).Dereference lv ok rv
          = if hproc = 0 ∨ hproc = INVALID_HANDLE_VALUE then lv
            else if ok then rv else 0)
    ∧ (∀ ok : Bool, ∀ la : Nat,
        (MemoryWrapper.construct addr s hproc).operatorArrow ok la
          = if hproc = 0 ∨ hproc = INVALID_HANDLE_VALUE then some addr
            else if ok then some la else none)
    ∧ (∀ pr sz : Nat, ∀ vp vpx : Bool,
        (MemoryWrapper.construct addr s hproc).Protect pr sz vp vpx
          = if hproc = 0 ∨ hproc = INVALID_HANDLE_VALUE then vp else vpx)
    ∧ (∀ (lc : Nat → Nat) (ll : Nat) (readOk : Nat → Bool)
          (garbage : Nat → Nat → Nat) (fuel : Nat),
        (MemoryWrapper.construct addr s hproc).ReadString lc ll readOk garbage
            fuel
          = if hproc = 0 ∨ hproc = INVALID_HANDLE_VALUE then cstrBytes lc ll
            else foreignReadLoop garbage readOk s fuel 0 10 0 20 0 false)
    ∧ (∀ (contents : Nat → Nat) (readOk : Bool) (sizeArg : Nat),
        (MemoryWrapper.construct addr s hproc).ToAllocationWrapper contents
            readOk sizeArg
          = if hproc = 0 ∨ hproc = INVALID_HANDLE_VALUE
            then localMaterialize s contents sizeArg
            else foreignMaterialize s contents readOk sizeArg) := by
  have hloc := isLocal_eq_decide addr s hproc
  refine ⟨?_, ?_, ?_, ?_, ?_, ?_, ?_⟩
  · rw [hloc]; simp
  · exact (isLocal_eq_decide addr s GetCurrentProcessHandle).trans (by decide)
  · intro lv rv ok
    by_cases hc : hproc = 0 ∨ hproc = INVALID_HANDLE_VALUE <;>
      simp [MemoryWrapper.Dereference, hloc, hc]
  · intro ok la
    unfold MemoryWrapper.operatorArrow
    by_cases hc : hproc = 0 ∨ hproc = INVALID_HANDLE_VALUE
    · have hl : (MemoryWrapper.construct addr s hproc).isLocal = true := by
        rw [hloc]; simp [hc]
      rw [hl]
      simp [hc, MemoryWrapper.construct]
    · have hl : (MemoryWrapper.construct addr s hproc).isLocal = false := by
        rw [hloc]; simp [hc]
      rw [hl]
      simp [hc]
  · intro pr sz vp vpx
    by_cases hc : hproc = 0 ∨ hproc = INVALID_HANDLE_VALUE <;>
      simp [MemoryWrapper.Protect, hloc, hc]
  · intro lc ll readOk garbage fuel
    unfold MemoryWrapper.ReadString
    by_cases hc : hproc = 0 ∨ hproc = INVALID_HANDLE_VALUE
    · have hl : (MemoryWrapper.construct addr s hproc).isLocal = true := by
        rw [hloc]; simp [hc]
      rw [hl]
      simp [hc]
    · have hl : (MemoryWrapper.construct addr s hproc).isLocal = false := by
        rw [hloc]; simp [hc]
      rw [hl]
      simp [hc, MemoryWrapper.construct]
  · intro contents readOk sizeArg
    by_cases hc : hproc = 0 ∨ hproc = INVALID_HANDLE_VALUE <;>
      simp [toAllocationWrapper_eq, handleBool_eq_decide, hc]

/-- Witness for C10: handle `42` is foreign; the defaulted constructor is
local. -/
theorem memoryWrapper_local_routing_witness :
    ((MemoryWrapper.construct 100 4 42).isLocal = true
      ↔ ((42 : Nat) = 0 ∨ (42 : Nat) = INVALID_HANDLE_VALUE))
    ∧ (MemoryWrapper.constructDefault 100 4).isLocal = true :=
  ⟨(memoryWrapper_local_routing 100 4 42).1,
    (memoryWrapper_local_routing 100 4 42).2.1⟩

end Wrappers
